import Mathlib

/-!
Verification of the core services of the trmnl-apis repository:
the recycling-week schedule calculator (src/services/recyclingService.ts),
the two-tier TTL cache (src/services/cache.ts as concatenated in
src/services/weatherService.ts), the weather-condition normalisation
(src/services/weatherService.ts), and the bearer-token authentication
middleware (src/middleware/auth.ts).

JavaScript machine integers in scope here (day counts, epoch milliseconds,
hours) are small enough to be exact in IEEE doubles, so they are embedded
as `Int`/`Nat`; the one fractional computation (`Math.round` of a
millisecond ratio) is justified against `ℚ` by an explicit lemma.
-/

/- ------------------------------------------------------------------ -/
/- Recycling service: src/services/recyclingService.ts                 -/
/- ------------------------------------------------------------------ -/

/-- Models the JavaScript primitive Date.UTC(year, month - 1, day) scaled to
whole days since the Unix epoch (1970-01-01), for in-range Gregorian dates.
This is Howard Hinnant's civil-from-days algorithm, which agrees with the
ECMAScript date algorithm on every calendar date; it backs the embedding of
the source's UTC-midnight markers as day numbers. -/
def daysFromCivil (year month day : Int) : Int :=
  let y := if month ≤ 2 then year - 1 else year
  let era := (if 0 ≤ y then y else y - 399) / 400
  let yoe := y - era * 400
  let mp := (month + 9) % 12
  let doy := (153 * mp + 2) / 5 + day - 1
  let doe := yoe * 365 + yoe / 4 - yoe / 100 + doy
  era * 146097 + doe - 719468

/-- Models localMidnight.getUTCDay() (recyclingService.ts line 40) for a
UTC-midnight marker given as a day number: day 0 (1970-01-01) was a
Thursday (4), and getUTCDay counts 0 = Sunday .. 6 = Saturday. -/
def dayOfWeekOf (midnightDay : Int) : Int :=
  (midnightDay + 4) % 7

/-- The part of the result of getDateInTimezone (recyclingService.ts lines
9-43) that getRecyclingInfo consumes: the local wall-clock hour and the
UTC-midnight marker of the local calendar day, the latter as a day number
(midnightUTC.getTime() = midnightDay * msPerDay).  The year/month/day
components are not read by getRecyclingInfo; dayOfWeek is derived from the
marker exactly as the source derives it (dayOfWeekOf). -/
structure LocalDateParts where
  hour : Nat
  midnightDay : Int
deriving DecidableEq

/-- Models the RecyclingConfig interface (recyclingService.ts lines 45-54).
All fields are optional in the source; the referenceDate string
"YYYY-MM-DD" is represented by its parsed (year, month, day) triple, as
produced by referenceDateStr.split("-").map(Number) on line 87. -/
structure RecyclingConfig where
  recyclingDayOfWeek : Option Int
  cutoffHour : Option Nat
  referenceDate : Option (Int × Int × Int)
  referenceWasRecycling : Option Bool

/-- The pair of values (targetDayUTC, isThisWeek) chosen by the branch at
recyclingService.ts lines 91-119. -/
structure TargetResult where
  targetDayUTC : Int
  isThisWeek : Bool
deriving DecidableEq

/-- Models line 104: (recyclingDayOfWeek - current.dayOfWeek + 7) % 7.
JavaScript % is the truncated remainder, Int.tmod. -/
def daysUntilRecyclingDay (recyclingDayOfWeek dayOfWeek : Int) : Int :=
  (recyclingDayOfWeek - dayOfWeek + 7).tmod 7

/-- Models the branch at recyclingService.ts lines 94-119 computing
targetDayUTC and isThisWeek from the resolved current date and the resolved
configuration values.  setUTCDate(getUTCDate() + n) on a UTC-midnight
marker is addition of n days to the day number. -/
def computeTarget (current : LocalDateParts) (recyclingDayOfWeek : Int)
    (cutoffHour : Nat) : TargetResult :=
  let isRecyclingDay := dayOfWeekOf current.midnightDay = recyclingDayOfWeek
  let isAfterCutoff := cutoffHour ≤ current.hour
  if isRecyclingDay ∧ isAfterCutoff then
    ⟨current.midnightDay + 7, false⟩
  else
    let d := daysUntilRecyclingDay recyclingDayOfWeek (dayOfWeekOf current.midnightDay)
    if d = 0 then
      ⟨current.midnightDay, true⟩
    else
      ⟨current.midnightDay + d, decide (d ≤ 2)⟩

/-- Milliseconds per day, as used implicitly by Date.getTime() on a
UTC-midnight marker. -/
def msPerDay : Int := 24 * 60 * 60 * 1000

/-- Models line 122: const msPerWeek = 7 * 24 * 60 * 60 * 1000. -/
def msPerWeek : Int := 7 * 24 * 60 * 60 * 1000

/-- Models lines 123-125: Math.round((targetDayUTC.getTime() -
referenceDate.getTime()) / msPerWeek).  Both dates are UTC-midnight
markers, so the numerator is (targetDay - referenceDay) * msPerDay.
Math.round x = ⌊x + 1/2⌋, and for b > 0, ⌊a / b + 1/2⌋ = ⌊(2a + b) / (2b)⌋,
with Euclidean division by the positive 2b computing the floor; the lemma
weeksDifference_eq_round below proves this embedding correct against ℚ. -/
def weeksDifference (targetDay referenceDay : Int) : Int :=
  (2 * ((targetDay - referenceDay) * msPerDay) + msPerWeek) / (2 * msPerWeek)

/-- Models lines 130-132: referenceWasRecycling ? weeksDifference % 2 === 0
: weeksDifference % 2 !== 0, with JavaScript % embedded as the truncated
remainder Int.tmod. -/
def isRecyclingOf (weeksDiff : Int) (referenceWasRecycling : Bool) : Bool :=
  if referenceWasRecycling then weeksDiff.tmod 2 == 0 else weeksDiff.tmod 2 != 0

/-- Models the message ternary at lines 134-141. -/
def recyclingMessage (isRecycling isThisWeek : Bool) : String :=
  if isRecycling then
    if isThisWeek then "This week is recycling pickup" else "Next week is recycling pickup"
  else
    if isThisWeek then "This week is trash only" else "Next week is trash only"

/-- Models the RecyclingInfo interface (recyclingService.ts lines 1-4). -/
structure RecyclingInfo where
  isRecyclingWeek : Bool
  message : String
deriving DecidableEq

/-- The reference UTC-midnight marker parsed at lines 83 and 86-88:
config.referenceDate ?? "2025-11-18", split and fed to Date.UTC. -/
def resolvedReferenceDay (config : RecyclingConfig) : Int :=
  let rd := config.referenceDate.getD (2025, 11, 18)
  daysFromCivil rd.1 rd.2.1 rd.2.2

/-- The (targetDayUTC, isThisWeek) pair getRecyclingInfo computes for a
resolved current date, after applying the config defaults of lines 81-82:
recyclingDayOfWeek ?? 2, cutoffHour ?? 12. -/
def targetOf (current : LocalDateParts) (config : RecyclingConfig) : TargetResult :=
  computeTarget current (config.recyclingDayOfWeek.getD 2) (config.cutoffHour.getD 12)

/-- The rounded week count between the computed target occurrence and the
reference anchor (lines 121-125). -/
def weeksDiffOf (current : LocalDateParts) (config : RecyclingConfig) : Int :=
  weeksDifference (targetOf current config).targetDayUTC (resolvedReferenceDay config)

/-- Models getRecyclingInfo (recyclingService.ts lines 73-147) as a function
of the resolved local date parts (the output of getDateInTimezone on the
instant and timezone) and the configuration.  Default
referenceWasRecycling ?? true is from line 84. -/
def getRecyclingInfo (current : LocalDateParts) (config : RecyclingConfig) : RecyclingInfo :=
  let t := targetOf current config
  let isRecycling := isRecyclingOf (weeksDiffOf current config)
    (config.referenceWasRecycling.getD true)
  ⟨isRecycling, recyclingMessage isRecycling t.isThisWeek⟩

/-- The all-default configuration, {} at the call site. -/
def defaultRecyclingConfig : RecyclingConfig := ⟨none, none, none, none⟩

/- ------------------------------------------------------------------ -/
/- Weather service: src/services/weatherService.ts (validated version) -/
/- ------------------------------------------------------------------ -/

/-- Models the WeatherConditions constants of src/types/index.ts. -/
inductive WeatherCondition where
  | clear
  | partly_cloudy
  | cloudy
  | rain
  | snow
  | thunderstorm
  | drizzle
  | mist
  | unknown
deriving DecidableEq, Fintype

/-- Models the priority record inside getMostSignificantWeather
(weatherService.ts lines 191-201). -/
def priority : WeatherCondition → Int
  | .snow => 7
  | .thunderstorm => 6
  | .rain => 5
  | .drizzle => 4
  | .mist => 3
  | .cloudy => 2
  | .partly_cloudy => 1
  | .clear => 0
  | .unknown => -1

/-- The reducer passed to conditions.reduce at lines 203-207:
priority[current] > priority[mostSignificant] ? current : mostSignificant. -/
def sigStep (mostSignificant current : WeatherCondition) : WeatherCondition :=
  if priority mostSignificant < priority current then current else mostSignificant

/-- Models getMostSignificantWeather (weatherService.ts lines 188-208):
a reduce over the conditions seeded with WeatherConditions.CLEAR. -/
def getMostSignificantWeather (conditions : List WeatherCondition) : WeatherCondition :=
  conditions.foldl sigStep .clear

/-- Models mapWeatherCondition (weatherService.ts lines 148-182). -/
def mapWeatherCondition (weatherId : Int) : WeatherCondition :=
  if 200 ≤ weatherId ∧ weatherId < 300 then .thunderstorm
  else if 300 ≤ weatherId ∧ weatherId < 400 then .drizzle
  else if 500 ≤ weatherId ∧ weatherId < 600 then .rain
  else if 600 ≤ weatherId ∧ weatherId < 700 then .snow
  else if 700 ≤ weatherId ∧ weatherId < 800 then .mist
  else if weatherId = 800 then .clear
  else if weatherId = 801 ∨ weatherId = 802 then .partly_cloudy
  else if weatherId = 803 ∨ weatherId = 804 then .cloudy
  else .unknown

/-- One element of a daily entry's weather array ({id, main, description});
only the id is read by the service. -/
structure OWWeatherItem where
  id : Int
deriving DecidableEq

/-- One entry of the daily array of the validated provider response.  The
weather field is optional (`none` models a missing field) because the source
reads it through the optional chain daily[0]?.weather?. -/
structure OWDailyEntry where
  moon_phase : ℚ
  weather : Option (List OWWeatherItem)

/-- The validated provider response shape consumed after the
isOpenWeatherResponse guard: current.temp and the daily array. -/
structure OWResponse where
  currentTemp : ℚ
  daily : List OWDailyEntry

/-- Models weatherService.ts lines 239-240: data.daily[0]?.weather?.map((w)
=> mapWeatherCondition(w.id)) || [].  An optional chain that short-circuits
yields undefined, which || replaces by []; an array (even empty) is truthy
and is kept. -/
def todayWeatherConditions (data : OWResponse) : List WeatherCondition :=
  ((data.daily.head?.bind OWDailyEntry.weather).getD []).map
    (fun w => mapWeatherCondition w.id)

/-- Models weatherService.ts lines 242-245: the weather field of the result
of getWeatherDataFromAPI, i.e. todayWeatherConditions.length > 0 ?
getMostSignificantWeather(todayWeatherConditions) :
WeatherConditions.UNKNOWN. -/
def todayWeather (data : OWResponse) : WeatherCondition :=
  if 0 < (todayWeatherConditions data).length then
    getMostSignificantWeather (todayWeatherConditions data)
  else
    WeatherCondition.unknown

/- ------------------------------------------------------------------ -/
/- Two-tier TTL cache: cache.ts (weatherService.ts lines 284-403)      -/
/- ------------------------------------------------------------------ -/

/-- Models Cached<T> = { value: T; cachedAt: number } (line 286).  The value
slot is Option V so that a stored JavaScript null/undefined value (`none`)
is representable; cachedAt is in epoch milliseconds. -/
structure Cached (V : Type) where
  value : Option V
  cachedAt : Int

/-- Models the isCached type guard (lines 290-295) on a well-typed envelope:
cachedAt is a number by construction here, so the guard reduces to the check
cached.value != null. -/
def isCached {V : Type} (c : Cached V) : Bool :=
  c.value.isSome

/-- Models the Netlify blobs durable tier as seen through getStore(name),
store.get(key, {type: "json"}) and store.setJSON(key, envelope): the
persisted envelopes, plus one flag per operation telling whether the
operation throws in the current environment.  A true flag models the
corresponding catch block being entered. -/
structure NetlifyStore (V : Type) where
  blobs : String → Option (Cached V)
  getStoreThrows : Bool
  getThrows : Bool
  setThrows : Bool

/-- Models the Cache<T> class state (lines 297-306): the cache name, the ttl,
and the in-process memory map. -/
structure Cache (V : Type) where
  cacheName : String
  ttl : Int
  memoryCache : String → Option (Cached V)

/-- Models Cache.#getNetlify (lines 308-346): a thrown getStore or store.get
is caught and yields null; a missing, malformed (isCached fails) or expired
(age >= ttl) envelope yields null; otherwise the stored value is returned. -/
def Cache.getNetlify {V : Type} (ttl : Int) (store : NetlifyStore V)
    (now : Int) (key : String) : Option V :=
  if store.getStoreThrows then none
  else if store.getThrows then none
  else
    match store.blobs key with
    | none => none
    | some result =>
      if ¬ isCached result then none
      else if ttl ≤ now - result.cachedAt then none
      else result.value

/-- Models Cache.#setNetlify (lines 348-363): a thrown getStore or setJSON is
caught and leaves the durable tier unchanged; otherwise the envelope
{cachedAt: now, value} is persisted under key. -/
def Cache.setNetlify {V : Type} (store : NetlifyStore V) (key : String)
    (value : Option V) (now : Int) : NetlifyStore V :=
  if store.getStoreThrows then store
  else if store.setThrows then store
  else
    ⟨fun k => if k = key then some ⟨value, now⟩ else store.blobs k,
      store.getStoreThrows, store.getThrows, store.setThrows⟩

/-- Models Cache.#getLocalCache (lines 365-387), identical in structure to
the durable read but over the memory map and without I/O. -/
def Cache.getLocalCache {V : Type} (ttl : Int)
    (memoryCache : String → Option (Cached V)) (now : Int) (key : String) : Option V :=
  match memoryCache key with
  | none => none
  | some result =>
    if ¬ isCached result then none
    else if ttl ≤ now - result.cachedAt then none
    else result.value

/-- Models Cache.#setLocalCache (lines 389-391):
memoryCache.set(key, {cachedAt: now, value}). -/
def Cache.setLocalCache {V : Type} (memoryCache : String → Option (Cached V))
    (key : String) (value : Option V) (now : Int) : String → Option (Cached V) :=
  fun k => if k = key then some ⟨value, now⟩ else memoryCache k

/-- Models Cache.get (lines 393-396): local ?? netlify, where the local tier
only ever returns non-null values, so ?? is the Option fallback. -/
def Cache.get {V : Type} (c : Cache V) (store : NetlifyStore V)
    (now : Int) (key : String) : Option V :=
  match Cache.getLocalCache c.ttl c.memoryCache now key with
  | some v => some v
  | none => Cache.getNetlify c.ttl store now key

/-- Models Cache.set (lines 398-402): stamp now = Date.now(), write the local
tier, then attempt the durable tier. -/
def Cache.set {V : Type} (c : Cache V) (store : NetlifyStore V)
    (now : Int) (key : String) (value : Option V) : Cache V × NetlifyStore V :=
  (⟨c.cacheName, c.ttl, Cache.setLocalCache c.memoryCache key value now⟩,
    Cache.setNetlify store key value now)

/- ------------------------------------------------------------------ -/
/- Auth middleware: src/middleware/auth.ts                             -/
/- ------------------------------------------------------------------ -/

/-- JavaScript truthiness test for an optional string: undefined and the
empty string are falsy. -/
def jsFalsy : Option String → Bool
  | none => true
  | some s => s.isEmpty

/-- Splits a character list on a separator character, keeping empty
segments, accumulating the current segment in reverse. -/
def splitCharAux (sep : Char) : List Char → List Char → List String
  | [], acc => [String.mk acc.reverse]
  | c :: rest, acc =>
    if c = sep then String.mk acc.reverse :: splitCharAux sep rest []
    else splitCharAux sep rest (c :: acc)

/-- Models the JavaScript String.prototype.split with a one-character
separator, as in authHeader.split(' '): every occurrence splits, empty
segments are kept, and the empty string yields [""]. -/
def jsSplit (s : String) (sep : Char) : List String :=
  splitCharAux sep s.data []

/-- The observable outcome of the middleware: either a JSON error response
with a status code, an error string and an optional message, or a call to
next() with no response written. -/
inductive AuthResult where
  | respond (status : Nat) (err : String) (message : Option String)
  | callNext
deriving DecidableEq

/-- Models validateApiKey (src/middleware/auth.ts lines 8-43): the
environment API_KEY and the authorization header are optional strings
(absent models undefined), checked in source order with JavaScript
truthiness. -/
def validateApiKey (validApiKey : Option String) (authHeader : Option String) : AuthResult :=
  if jsFalsy validApiKey then
    .respond 500 "Server configuration error: API_KEY not set" none
  else if jsFalsy authHeader then
    .respond 401 "Unauthorized: API key required"
      (some "Please provide an API key in the Authorization header (Bearer <token>)")
  else
    let parts := jsSplit (authHeader.getD "") ' '
    if parts.length ≠ 2 ∨ parts.headD "" ≠ "Bearer" then
      .respond 401 "Unauthorized: Invalid authorization format"
        (some "Authorization header must be in the format: Bearer <token>")
    else if parts.getD 1 "" ≠ validApiKey.getD "" then
      .respond 403 "Forbidden: Invalid API key" none
    else
      .callNext

/- ------------------------------------------------------------------ -/
/- Sanity checks of the calendar embedding                             -/
/- ------------------------------------------------------------------ -/

/-- The Unix epoch is day 0 of the embedding. -/
lemma daysFromCivil_epoch : daysFromCivil 1970 1 1 = 0 := by decide

/-- The default reference date 2025-11-18 is day 20410 and falls on a
Tuesday (dayOfWeek 2), matching the source comment on line 60. -/
lemma daysFromCivil_reference :
    daysFromCivil 2025 11 18 = 20410 ∧ dayOfWeekOf 20410 = 2 := by decide

/- ------------------------------------------------------------------ -/
/- Shared lemmas about the week-difference arithmetic                  -/
/- ------------------------------------------------------------------ -/

/-- The integer embedding of Math.round agrees with the exact rational
computation of lines 123-125: weeksDifference is the floor of the
millisecond ratio plus one half. -/
lemma weeksDifference_eq_round (t r : Int) :
    weeksDifference t r =
      ⌊(((t - r) * msPerDay : Int) : ℚ) / ((msPerWeek : Int) : ℚ) + 1 / 2⌋ := by
  have h : (((t - r) * msPerDay : Int) : ℚ) / ((msPerWeek : Int) : ℚ) + 1 / 2
      = ((2 * ((t - r) * msPerDay) + msPerWeek : Int) : ℚ) / ((1209600000 : Nat) : ℚ) := by
    push_cast [msPerDay, msPerWeek]
    field_simp
    ring
  rw [h, Rat.floor_intCast_div_natCast]
  simp only [weeksDifference, msPerDay, msPerWeek]
  norm_num

/-- Moving the target one week later increases the rounded week count by
exactly one. -/
lemma weeksDifference_add_week (t r : Int) :
    weeksDifference (t + 7) r = weeksDifference t r + 1 := by
  unfold weeksDifference
  have h : 2 * ((t + 7 - r) * msPerDay) + msPerWeek
      = (2 * ((t - r) * msPerDay) + msPerWeek) + 1 * (2 * msPerWeek) := by
    simp only [msPerDay, msPerWeek]; ring
  rw [h, Int.add_mul_ediv_right _ _ (by norm_num [msPerWeek])]

/-- The truncated remainder by two vanishes exactly when the Euclidean one
does. -/
lemma tmod_two_emod (w : Int) : w.tmod 2 = 0 ↔ w % 2 = 0 :=
  Int.dvd_iff_tmod_eq_zero.symm.trans Int.dvd_iff_emod_eq_zero

/-- JavaScript weeksDifference % 2 === 0 tests evenness, for negative
values as well. -/
lemma tmod_two_even (w : Int) : w.tmod 2 = 0 ↔ Even w := by
  rw [tmod_two_emod, Int.even_iff]

/-- JavaScript weeksDifference % 2 !== 0 tests oddness, for negative values
as well. -/
lemma tmod_two_odd (w : Int) : ¬ w.tmod 2 = 0 ↔ Odd w := by
  rw [tmod_two_emod, Int.odd_iff]; omega

/-- The alternation test returns the reference polarity exactly on even
week distances. -/
lemma isRecyclingOf_eq_iff_even (w : Int) (b : Bool) :
    (isRecyclingOf w b = b) ↔ Even w := by
  rw [← tmod_two_even]
  by_cases h : w.tmod 2 = 0 <;> cases b <;> simp [isRecyclingOf, h]

/-- One more week flips the alternation test. -/
lemma isRecyclingOf_add_one (w : Int) (b : Bool) :
    isRecyclingOf (w + 1) b = !(isRecyclingOf w b) := by
  by_cases h : w % 2 = 0
  · have ht : w.tmod 2 = 0 := (tmod_two_emod w).2 h
    have ht1 : ¬ (w + 1).tmod 2 = 0 := by rw [tmod_two_emod]; omega
    cases b <;> simp [isRecyclingOf, ht, ht1]
  · have ht : ¬ w.tmod 2 = 0 := fun hh => h ((tmod_two_emod w).1 hh)
    have ht1 : (w + 1).tmod 2 = 0 := by rw [tmod_two_emod]; omega
    cases b <;> simp [isRecyclingOf, ht, ht1]

/-- The isRecyclingWeek field of the result is the alternation test applied
to the rounded week count and the resolved reference polarity. -/
lemma getRecyclingInfo_isRecyclingWeek (p : LocalDateParts) (config : RecyclingConfig) :
    (getRecyclingInfo p config).isRecyclingWeek
      = isRecyclingOf (weeksDiffOf p config) (config.referenceWasRecycling.getD true) := rfl

/- ------------------------------------------------------------------ -/
/- Claim theorems: recycling service                                   -/
/- ------------------------------------------------------------------ -/

/-- C1: on a resolved local date whose day of week equals the configured
recycling day, getRecyclingInfo selects next week's occurrence (today's
midnight marker + 7 days) with isThisWeek = false when hour >= cutoffHour
(including equality), and today's midnight marker with isThisWeek = true
when hour < cutoffHour. -/
theorem recycling_cutoff_boundary (config : RecyclingConfig) (p : LocalDateParts)
    (hday : dayOfWeekOf p.midnightDay = config.recyclingDayOfWeek.getD 2) :
    (config.cutoffHour.getD 12 ≤ p.hour →
      targetOf p config = ⟨p.midnightDay + 7, false⟩) ∧
    (p.hour < config.cutoffHour.getD 12 →
      targetOf p config = ⟨p.midnightDay, true⟩) := by
  constructor <;> intro h
  · simp only [targetOf, computeTarget]
    rw [if_pos ⟨hday, h⟩]
  · simp only [targetOf, computeTarget]
    rw [if_neg (fun hc => absurd hc.2 (not_le.mpr h))]
    simp [daysUntilRecyclingDay, hday]

/-- Witness for C1 at the default configuration, on the Tuesday
1970-01-06 (day 5): at hour 12 the target is day 12 = next Tuesday, at hour
8 it is day 5 itself. -/
theorem recycling_cutoff_boundary_witness :
    dayOfWeekOf (5 : Int) = defaultRecyclingConfig.recyclingDayOfWeek.getD 2 ∧
    targetOf ⟨12, 5⟩ defaultRecyclingConfig = ⟨12, false⟩ ∧
    targetOf ⟨8, 5⟩ defaultRecyclingConfig = ⟨5, true⟩ :=
  ⟨by decide,
    (recycling_cutoff_boundary defaultRecyclingConfig ⟨12, 5⟩ (by decide)).1 (by decide),
    (recycling_cutoff_boundary defaultRecyclingConfig ⟨8, 5⟩ (by decide)).2 (by decide)⟩

/-- C5: outside the after-cutoff-on-recycling-day branch the target is
today's midnight marker plus daysUntil = (recyclingDayOfWeek - dayOfWeek +
7) % 7 days, and isThisWeek holds exactly when daysUntil <= 2. -/
theorem recycling_this_next_boundary (config : RecyclingConfig) (p : LocalDateParts)
    (hnot : ¬(dayOfWeekOf p.midnightDay = config.recyclingDayOfWeek.getD 2 ∧
      config.cutoffHour.getD 12 ≤ p.hour)) :
    targetOf p config =
      ⟨p.midnightDay +
        daysUntilRecyclingDay (config.recyclingDayOfWeek.getD 2) (dayOfWeekOf p.midnightDay),
        decide (daysUntilRecyclingDay (config.recyclingDayOfWeek.getD 2)
          (dayOfWeekOf p.midnightDay) ≤ 2)⟩ := by
  simp only [targetOf, computeTarget]
  rw [if_neg hnot]
  by_cases hd : daysUntilRecyclingDay (config.recyclingDayOfWeek.getD 2)
      (dayOfWeekOf p.midnightDay) = 0
  · rw [if_pos hd, hd]
    simp
  · rw [if_neg hd]

/-- Witness for C5 at the default configuration, on the Sunday 1970-01-04
(day 3): daysUntil = 2, target day 5, isThisWeek = true. -/
theorem recycling_this_next_boundary_witness :
    ¬(dayOfWeekOf (3 : Int) = defaultRecyclingConfig.recyclingDayOfWeek.getD 2 ∧
      defaultRecyclingConfig.cutoffHour.getD 12 ≤ 8) ∧
    targetOf ⟨8, 3⟩ defaultRecyclingConfig = ⟨5, true⟩ :=
  ⟨by decide, recycling_this_next_boundary defaultRecyclingConfig ⟨8, 3⟩ (by decide)⟩

/-- C2: for a fixed configuration, isRecyclingWeek equals the configured
reference polarity exactly when the rounded week distance from the
reference anchor is even; two inputs whose computed targets lie exactly one
week apart get opposite isRecyclingWeek, and exactly two weeks apart the
same. -/
theorem recycling_parity_law (config : RecyclingConfig) (p p1 p2 : LocalDateParts) :
    ((getRecyclingInfo p config).isRecyclingWeek = config.referenceWasRecycling.getD true ↔
      Even (weeksDiffOf p config)) ∧
    ((targetOf p2 config).targetDayUTC = (targetOf p1 config).targetDayUTC + 7 →
      (getRecyclingInfo p2 config).isRecyclingWeek
        = !(getRecyclingInfo p1 config).isRecyclingWeek) ∧
    ((targetOf p2 config).targetDayUTC = (targetOf p1 config).targetDayUTC + 14 →
      (getRecyclingInfo p2 config).isRecyclingWeek
        = (getRecyclingInfo p1 config).isRecyclingWeek) := by
  refine ⟨?_, ?_, ?_⟩
  · rw [getRecyclingInfo_isRecyclingWeek]
    exact isRecyclingOf_eq_iff_even _ _
  · intro h7
    rw [getRecyclingInfo_isRecyclingWeek, getRecyclingInfo_isRecyclingWeek]
    have hw : weeksDiffOf p2 config = weeksDiffOf p1 config + 1 := by
      unfold weeksDiffOf
      rw [h7, weeksDifference_add_week]
    rw [hw, isRecyclingOf_add_one]
  · intro h14
    rw [getRecyclingInfo_isRecyclingWeek, getRecyclingInfo_isRecyclingWeek]
    have hw : weeksDiffOf p2 config = weeksDiffOf p1 config + 1 + 1 := by
      unfold weeksDiffOf
      rw [h14]
      have : (targetOf p1 config).targetDayUTC + 14
          = (targetOf p1 config).targetDayUTC + 7 + 7 := by ring
      rw [this, weeksDifference_add_week, weeksDifference_add_week]
    rw [hw, isRecyclingOf_add_one, isRecyclingOf_add_one, Bool.not_not]

/-- Witness for C2 at the default configuration: the Tuesdays 1970-01-06
(day 5) and 1970-01-13 (day 12) have targets one week apart and opposite
isRecyclingWeek. -/
theorem recycling_parity_law_witness :
    (targetOf ⟨8, 12⟩ defaultRecyclingConfig).targetDayUTC
      = (targetOf ⟨8, 5⟩ defaultRecyclingConfig).targetDayUTC + 7 ∧
    (getRecyclingInfo ⟨8, 12⟩ defaultRecyclingConfig).isRecyclingWeek
      = !(getRecyclingInfo ⟨8, 5⟩ defaultRecyclingConfig).isRecyclingWeek :=
  ⟨by decide,
    (recycling_parity_law defaultRecyclingConfig ⟨8, 5⟩ ⟨8, 5⟩ ⟨8, 12⟩).2.1 (by decide)⟩

/-- C8: for targets earlier than the reference anchor, the JavaScript
truncated remainder still classifies parity correctly: weeksDifference % 2
=== 0 exactly for even (possibly negative) week distances, a non-zero
remainder exactly for odd ones, and isRecyclingWeek equals the reference
polarity exactly when the week distance is even. -/
theorem recycling_negative_weeks_parity (config : RecyclingConfig) (p : LocalDateParts)
    (hearly : (targetOf p config).targetDayUTC < resolvedReferenceDay config) :
    ((weeksDiffOf p config).tmod 2 = 0 ↔ Even (weeksDiffOf p config)) ∧
    (¬ (weeksDiffOf p config).tmod 2 = 0 ↔ Odd (weeksDiffOf p config)) ∧
    ((getRecyclingInfo p config).isRecyclingWeek = config.referenceWasRecycling.getD true ↔
      Even (weeksDiffOf p config)) := by
  refine ⟨tmod_two_even _, tmod_two_odd _, ?_⟩
  rw [getRecyclingInfo_isRecyclingWeek]
  exact isRecyclingOf_eq_iff_even _ _

/-- Witness for C8 at the default configuration, on the Tuesday 1970-01-06
(day 5), 2915 weeks before the reference anchor: its week distance is
negative and odd, and the remainder test detects the odd parity. -/
theorem recycling_negative_weeks_parity_witness :
    (targetOf ⟨8, 5⟩ defaultRecyclingConfig).targetDayUTC
      < resolvedReferenceDay defaultRecyclingConfig ∧
    (¬ (weeksDiffOf ⟨8, 5⟩ defaultRecyclingConfig).tmod 2 = 0 ↔
      Odd (weeksDiffOf ⟨8, 5⟩ defaultRecyclingConfig)) :=
  ⟨by decide,
    (recycling_negative_weeks_parity defaultRecyclingConfig ⟨8, 5⟩ (by decide)).2.1⟩

/- ------------------------------------------------------------------ -/
/- Shared lemmas about the severity fold                               -/
/- ------------------------------------------------------------------ -/

/-- The severity fold returns its accumulator or an element of the list. -/
lemma foldl_sigStep_mem (l : List WeatherCondition) (a : WeatherCondition) :
    l.foldl sigStep a = a ∨ l.foldl sigStep a ∈ l := by
  induction l generalizing a with
  | nil => exact Or.inl rfl
  | cons c t ih =>
    rw [List.foldl_cons]
    rcases ih (sigStep a c) with h | h
    · by_cases hp : priority a < priority c
      · right
        rw [h]
        simp [sigStep, hp]
      · left
        rw [h]
        simp [sigStep, hp]
    · exact Or.inr (List.mem_cons_of_mem _ h)

/-- The severity fold never decreases the accumulator's priority. -/
lemma foldl_sigStep_le_acc (l : List WeatherCondition) (a : WeatherCondition) :
    priority a ≤ priority (l.foldl sigStep a) := by
  induction l generalizing a with
  | nil => exact le_refl _
  | cons c t ih =>
    rw [List.foldl_cons]
    refine le_trans ?_ (ih (sigStep a c))
    simp only [sigStep]
    rcases lt_or_le (priority a) (priority c) with h | h
    · rw [if_pos h]
      exact le_of_lt h
    · rw [if_neg (not_lt.mpr h)]

/-- The severity fold dominates the priority of every list element. -/
lemma foldl_sigStep_le_all (l : List WeatherCondition) (a : WeatherCondition) :
    ∀ c ∈ l, priority c ≤ priority (l.foldl sigStep a) := by
  induction l generalizing a with
  | nil =>
    intro c hc
    simp at hc
  | cons d t ih =>
    intro c hc
    rw [List.foldl_cons]
    rcases List.mem_cons.mp hc with rfl | hc
    · refine le_trans ?_ (foldl_sigStep_le_acc t (sigStep a c))
      simp only [sigStep]
      rcases lt_or_le (priority a) (priority c) with h | h
      · rw [if_pos h]
      · rw [if_neg (not_lt.mpr h)]
        exact h
    · exact ih (sigStep a d) c hc

/-- The priority table is injective on the nine conditions. -/
lemma priority_injective :
    ∀ c d : WeatherCondition, priority c = priority d → c = d := by decide

/-- Every condition other than unknown has non-negative priority. -/
lemma priority_nonneg_of_ne_unknown :
    ∀ c : WeatherCondition, c ≠ WeatherCondition.unknown → 0 ≤ priority c := by decide

/- ------------------------------------------------------------------ -/
/- Claim theorems: weather condition severity (C6, C10)                -/
/- ------------------------------------------------------------------ -/

/-- C6 counterexample: for the non-empty list [unknown], the most severe
condition present is unknown, but getMostSignificantWeather returns clear
(the reduce seed), which is not present in the list at all, so the claim
that the result is always the most severe condition present fails. -/
theorem weather_most_significant_counterexample :
    getMostSignificantWeather [WeatherCondition.unknown] = WeatherCondition.clear ∧
    WeatherCondition.clear ∉ [WeatherCondition.unknown] := by decide

/-- C6 amended: for every non-empty list of conditions that contains at
least one condition other than unknown, getMostSignificantWeather returns a
condition present in the list whose priority dominates that of every
element, under the fixed order snow > thunderstorm > rain > drizzle > mist >
cloudy > partly-cloudy > clear > unknown; a non-empty list consisting only
of unknown conditions instead yields clear, the seed of the reduction. -/
theorem weather_most_significant_amended (l : List WeatherCondition) (hne : l ≠ []) :
    ((∃ c ∈ l, c ≠ WeatherCondition.unknown) →
      getMostSignificantWeather l ∈ l ∧
      ∀ c ∈ l, priority c ≤ priority (getMostSignificantWeather l)) ∧
    ((∀ c ∈ l, c = WeatherCondition.unknown) →
      getMostSignificantWeather l = WeatherCondition.clear) := by
  constructor
  · rintro ⟨c₀, hc₀, hne₀⟩
    refine ⟨?_, foldl_sigStep_le_all l .clear⟩
    rcases foldl_sigStep_mem l .clear with h | h
    · have h1 : priority c₀ ≤ priority (l.foldl sigStep .clear) :=
        foldl_sigStep_le_all l .clear c₀ hc₀
      rw [h] at h1
      have h0 : 0 ≤ priority c₀ := priority_nonneg_of_ne_unknown c₀ hne₀
      have hc : c₀ = WeatherCondition.clear := by
        apply priority_injective
        have : priority WeatherCondition.clear = 0 := rfl
        omega
      show l.foldl sigStep .clear ∈ l
      rw [h, ← hc]
      exact hc₀
    · exact h
  · intro hall
    rcases foldl_sigStep_mem l .clear with h | h
    · exact h
    · exfalso
      have hle := foldl_sigStep_le_acc l .clear
      rw [hall _ h] at hle
      simp [priority] at hle

/-- Witness for C6 amended on the list [rain, snow]: the result is present
and dominates both elements. -/
theorem weather_most_significant_amended_witness :
    ([WeatherCondition.rain, WeatherCondition.snow] ≠ []) ∧
    (getMostSignificantWeather [WeatherCondition.rain, WeatherCondition.snow]
        ∈ [WeatherCondition.rain, WeatherCondition.snow] ∧
      ∀ c ∈ [WeatherCondition.rain, WeatherCondition.snow],
        priority c ≤ priority
          (getMostSignificantWeather [WeatherCondition.rain, WeatherCondition.snow])) :=
  ⟨by decide,
    (weather_most_significant_amended [WeatherCondition.rain, WeatherCondition.snow]
      (by decide)).1 (by decide)⟩

/-- C10: when the validated response has a missing or empty weather array
for today, the computed condition is unknown, bypassing the severity
reduction whose seed would have produced clear on the empty list. -/
theorem weather_empty_today_unknown (data : OWResponse)
    (h : data.daily.head?.bind OWDailyEntry.weather = none ∨
      data.daily.head?.bind OWDailyEntry.weather = some []) :
    todayWeather data = WeatherCondition.unknown ∧
    getMostSignificantWeather [] = WeatherCondition.clear := by
  have hconds : todayWeatherConditions data = [] := by
    unfold todayWeatherConditions
    rcases h with h | h <;> rw [h] <;> rfl
  refine ⟨?_, rfl⟩
  simp [todayWeather, hconds]

/-- Witness for C10 on a response with an empty daily array. -/
theorem weather_empty_today_unknown_witness :
    ((⟨0, []⟩ : OWResponse).daily.head?.bind OWDailyEntry.weather = none ∨
      (⟨0, []⟩ : OWResponse).daily.head?.bind OWDailyEntry.weather = some []) ∧
    todayWeather ⟨0, []⟩ = WeatherCondition.unknown :=
  ⟨Or.inl rfl, (weather_empty_today_unknown ⟨0, []⟩ (Or.inl rfl)).1⟩

/- ------------------------------------------------------------------ -/
/- Shared lemmas about the cache                                       -/
/- ------------------------------------------------------------------ -/

/-- After a set at time T, a durable read at any time at least ttl after T
yields null, whether the durable write succeeded (the fresh envelope is
expired) or threw (any surviving envelope is dated at or before T, hence
also expired). -/
lemma getNetlify_after_set_stale (V : Type) (store : NetlifyStore V) (key : String)
    (value : Option V) (T now ttl : Int) (hnow : ttl ≤ now - T)
    (hprior : ∀ e, store.blobs key = some e → e.cachedAt ≤ T) :
    Cache.getNetlify ttl (Cache.setNetlify store key value T) now key = none := by
  unfold Cache.getNetlify Cache.setNetlify
  by_cases hgs : store.getStoreThrows = true
  · simp [hgs]
  · simp only [Bool.not_eq_true] at hgs
    by_cases hst : store.setThrows = true
    · simp only [hgs, hst, Bool.false_eq_true, ite_false, ite_true]
      by_cases hgt : store.getThrows = true
      · simp [hgt]
      · simp only [Bool.not_eq_true] at hgt
        simp only [hgt, Bool.false_eq_true, ite_false]
        cases hb : store.blobs key with
        | none => rfl
        | some e =>
          have he := hprior e hb
          have hle : ttl ≤ now - e.cachedAt := by omega
          by_cases hc : isCached e = true
          · simp [hc, hle]
          · simp [hc]
    · simp only [Bool.not_eq_true] at hst
      simp only [hgs, hst, Bool.false_eq_true, ite_false]
      by_cases hgt : store.getThrows = true
      · simp [hgt]
      · simp only [Bool.not_eq_true] at hgt
        cases value with
        | none => simp [hgs, hgt, isCached]
        | some v => simp [hgs, hgt, isCached, hnow]

/- ------------------------------------------------------------------ -/
/- Claim theorems: two-tier TTL cache (C3, C4, C9)                     -/
/- ------------------------------------------------------------------ -/

/-- C3: with a positive ttl, after set(key, v) at time T (v non-null) with
every pre-existing durable envelope for the key dated at or before T and no
intervening set, get(key) returns exactly v at any time strictly before
T + ttl and null at any time at or after T + ttl, because both tiers test
expiry lazily at read time with now - cachedAt >= ttl. -/
theorem cache_ttl (V : Type) (c : Cache V) (store : NetlifyStore V) (key : String)
    (v : V) (T now : Int) (httl : 0 < c.ttl)
    (hprior : ∀ e, store.blobs key = some e → e.cachedAt ≤ T) :
    (now < T + c.ttl →
      Cache.get (Cache.set c store T key (some v)).1
        (Cache.set c store T key (some v)).2 now key = some v) ∧
    (T + c.ttl ≤ now →
      Cache.get (Cache.set c store T key (some v)).1
        (Cache.set c store T key (some v)).2 now key = none) := by
  constructor <;> intro h
  · have hloc : Cache.getLocalCache c.ttl
        (Cache.setLocalCache c.memoryCache key (some v) T) now key = some v := by
      unfold Cache.getLocalCache Cache.setLocalCache
      simp [isCached]
      omega
    show Cache.get ⟨c.cacheName, c.ttl, Cache.setLocalCache c.memoryCache key (some v) T⟩
      (Cache.setNetlify store key (some v) T) now key = some v
    unfold Cache.get
    rw [hloc]
  · have hloc : Cache.getLocalCache c.ttl
        (Cache.setLocalCache c.memoryCache key (some v) T) now key = none := by
      unfold Cache.getLocalCache Cache.setLocalCache
      simp [isCached]
      omega
    show Cache.get ⟨c.cacheName, c.ttl, Cache.setLocalCache c.memoryCache key (some v) T⟩
      (Cache.setNetlify store key (some v) T) now key = none
    unfold Cache.get
    rw [hloc, getNetlify_after_set_stale V store key (some v) T now c.ttl (by omega) hprior]

/-- The shared cache instance for concrete witnesses: name "weather-cache",
ttl 600000 ms (10 minutes), empty memory map. -/
def witnessCache : Cache Nat := ⟨"weather-cache", 600000, fun _ => none⟩

/-- A durable tier with no stored envelopes and all operations working. -/
def witnessStoreOk : NetlifyStore Nat := ⟨fun _ => none, false, false, false⟩

/-- A durable tier whose every operation throws. -/
def witnessStoreDown : NetlifyStore Nat := ⟨fun _ => none, true, true, true⟩

/-- Witness for C3: a value set at time 0 is read back at time 1 and gone at
time 600000 = ttl. -/
theorem cache_ttl_witness :
    (0 : Int) < witnessCache.ttl ∧
    Cache.get (Cache.set witnessCache witnessStoreOk 0 "k" (some 5)).1
      (Cache.set witnessCache witnessStoreOk 0 "k" (some 5)).2 1 "k" = some 5 ∧
    Cache.get (Cache.set witnessCache witnessStoreOk 0 "k" (some 5)).1
      (Cache.set witnessCache witnessStoreOk 0 "k" (some 5)).2 600000 "k" = none :=
  ⟨by decide,
    (cache_ttl Nat witnessCache witnessStoreOk "k" 5 0 1 (by decide)
      (fun e he => Option.noConfusion he)).1 (by decide),
    (cache_ttl Nat witnessCache witnessStoreOk "k" 5 0 600000 (by decide)
      (fun e he => Option.noConfusion he)).2 (by decide)⟩

/-- C4: when getStore, store.get and store.setJSON all throw, get answers
from the local tier alone with the durable tier acting as a miss, and set
still writes the local tier and completes, leaving the durable tier
untouched; neither operation propagates the failure. -/
theorem cache_degradation (V : Type) (c : Cache V) (store : NetlifyStore V)
    (now now2 : Int) (key : String) (value : Option V)
    (h1 : store.getStoreThrows = true) (h2 : store.getThrows = true)
    (h3 : store.setThrows = true) :
    Cache.get c store now key = Cache.getLocalCache c.ttl c.memoryCache now key ∧
    Cache.getNetlify c.ttl store now key = none ∧
    (Cache.set c store now2 key value).2 = store ∧
    (Cache.set c store now2 key value).1.memoryCache key = some ⟨value, now2⟩ := by
  have hnet : Cache.getNetlify c.ttl store now key = none := by
    unfold Cache.getNetlify
    simp [h1]
  refine ⟨?_, hnet, ?_, ?_⟩
  · unfold Cache.get
    cases hl : Cache.getLocalCache c.ttl c.memoryCache now key
    · rw [hnet]
    · rfl
  · show Cache.setNetlify store key value now2 = store
    unfold Cache.setNetlify
    simp [h1]
  · simp [Cache.set, Cache.setLocalCache]

/-- Witness for C4 with the all-throwing durable tier. -/
theorem cache_degradation_witness :
    witnessStoreDown.getStoreThrows = true ∧
    Cache.get witnessCache witnessStoreDown 7 "k"
      = Cache.getLocalCache witnessCache.ttl witnessCache.memoryCache 7 "k" ∧
    (Cache.set witnessCache witnessStoreDown 7 "k" (some 5)).2 = witnessStoreDown :=
  ⟨rfl,
    (cache_degradation Nat witnessCache witnessStoreDown 7 7 "k" (some 5) rfl rfl rfl).1,
    (cache_degradation Nat witnessCache witnessStoreDown 7 7 "k" (some 5) rfl rfl rfl).2.2.1⟩

/-- C9: a null value is indistinguishable from absence: after set(key, null)
at any time T (with the durable write succeeding), get(key) returns null at
every time, even immediately and within ttl, because the isCached guard
requires a non-null stored value in both tiers. -/
theorem cache_null_value (V : Type) (c : Cache V) (store : NetlifyStore V)
    (T now : Int) (key : String)
    (h1 : store.getStoreThrows = false) (h3 : store.setThrows = false) :
    Cache.get (Cache.set c store T key none).1
      (Cache.set c store T key none).2 now key = none := by
  have hloc : Cache.getLocalCache c.ttl
      (Cache.setLocalCache c.memoryCache key none T) now key = none := by
    unfold Cache.getLocalCache Cache.setLocalCache
    simp [isCached]
  have hnet : Cache.getNetlify c.ttl (Cache.setNetlify store key none T) now key = none := by
    unfold Cache.getNetlify Cache.setNetlify
    simp only [h1, Bool.false_eq_true, ite_false, h3]
    by_cases hgt : store.getThrows
    · simp [hgt]
    · simp [hgt, isCached]
  show Cache.get ⟨c.cacheName, c.ttl, Cache.setLocalCache c.memoryCache key none T⟩
    (Cache.setNetlify store key none T) now key = none
  unfold Cache.get
  rw [hloc, hnet]

/-- Witness for C9: setting null at time 0 and reading back at time 0. -/
theorem cache_null_value_witness :
    witnessStoreOk.getStoreThrows = false ∧ witnessStoreOk.setThrows = false ∧
    Cache.get (Cache.set witnessCache witnessStoreOk 0 "k" none).1
      (Cache.set witnessCache witnessStoreOk 0 "k" none).2 0 "k" = none :=
  ⟨rfl, rfl, cache_null_value Nat witnessCache witnessStoreOk 0 0 "k" rfl rfl⟩

/- ------------------------------------------------------------------ -/
/- Claim theorem: auth middleware (C7)                                 -/
/- ------------------------------------------------------------------ -/

/-- C7: validateApiKey decides in exactly this order: no configured API_KEY
gives 500 with the configuration error; otherwise a missing header gives
401; otherwise a header that does not split on spaces into exactly two
parts with first part Bearer gives 401 with the format error; otherwise a
token different from API_KEY gives 403; otherwise it calls next. -/
theorem auth_decision_order (validApiKey authHeader : Option String) :
    (jsFalsy validApiKey = true →
      validateApiKey validApiKey authHeader
        = .respond 500 "Server configuration error: API_KEY not set" none) ∧
    (jsFalsy validApiKey = false → jsFalsy authHeader = true →
      validateApiKey validApiKey authHeader
        = .respond 401 "Unauthorized: API key required"
            (some "Please provide an API key in the Authorization header (Bearer <token>)")) ∧
    (jsFalsy validApiKey = false → jsFalsy authHeader = false →
      ((jsSplit (authHeader.getD "") ' ').length ≠ 2 ∨
        (jsSplit (authHeader.getD "") ' ').headD "" ≠ "Bearer") →
      validateApiKey validApiKey authHeader
        = .respond 401 "Unauthorized: Invalid authorization format"
            (some "Authorization header must be in the format: Bearer <token>")) ∧
    (jsFalsy validApiKey = false → jsFalsy authHeader = false →
      (jsSplit (authHeader.getD "") ' ').length = 2 →
      (jsSplit (authHeader.getD "") ' ').headD "" = "Bearer" →
      (jsSplit (authHeader.getD "") ' ').getD 1 "" ≠ validApiKey.getD "" →
      validateApiKey validApiKey authHeader
        = .respond 403 "Forbidden: Invalid API key" none) ∧
    (jsFalsy validApiKey = false → jsFalsy authHeader = false →
      (jsSplit (authHeader.getD "") ' ').length = 2 →
      (jsSplit (authHeader.getD "") ' ').headD "" = "Bearer" →
      (jsSplit (authHeader.getD "") ' ').getD 1 "" = validApiKey.getD "" →
      validateApiKey validApiKey authHeader = .callNext) := by
  refine ⟨?_, ?_, ?_, ?_, ?_⟩
  · intro h1
    simp [validateApiKey, h1]
  · intro h1 h2
    simp [validateApiKey, h1, h2]
  · intro h1 h2 h3
    unfold validateApiKey
    simp only [h1, h2, Bool.false_eq_true, ite_false]
    rw [if_pos h3]
  · intro h1 h2 h3 h4 h5
    unfold validateApiKey
    simp only [h1, h2, Bool.false_eq_true, ite_false]
    rw [if_neg (not_or.mpr ⟨not_not_intro h3, not_not_intro h4⟩), if_pos h5]
  · intro h1 h2 h3 h4 h5
    unfold validateApiKey
    simp only [h1, h2, Bool.false_eq_true, ite_false]
    rw [if_neg (not_or.mpr ⟨not_not_intro h3, not_not_intro h4⟩), if_neg (not_not_intro h5)]

/-- Witness for C7: one concrete request per branch, with API_KEY secret. -/
theorem auth_decision_order_witness :
    validateApiKey none (some "Bearer secret")
      = .respond 500 "Server configuration error: API_KEY not set" none ∧
    validateApiKey (some "secret") none
      = .respond 401 "Unauthorized: API key required"
          (some "Please provide an API key in the Authorization header (Bearer <token>)") ∧
    validateApiKey (some "secret") (some "Basic secret")
      = .respond 401 "Unauthorized: Invalid authorization format"
          (some "Authorization header must be in the format: Bearer <token>") ∧
    validateApiKey (some "secret") (some "Bearer wrong")
      = .respond 403 "Forbidden: Invalid API key" none ∧
    validateApiKey (some "secret") (some "Bearer secret") = .callNext :=
  ⟨(auth_decision_order none (some "Bearer secret")).1 (by decide),
    (auth_decision_order (some "secret") none).2.1 (by decide) (by decide),
    (auth_decision_order (some "secret") (some "Basic secret")).2.2.1
      (by decide) (by decide) (by decide),
    (auth_decision_order (some "secret") (some "Bearer wrong")).2.2.2.1
      (by decide) (by decide) (by decide) (by decide) (by decide),
    (auth_decision_order (some "secret") (some "Bearer secret")).2.2.2.2
      (by decide) (by decide) (by decide) (by decide) (by decide)⟩
